import Mathlib

/-!
Shallow embedding of the RTanks statistics scraper (`src/scraper.py`) together
with the result cache described by the specification (the cache implementation
itself is absent from `src/`; only its TTL constants survive in
`src/config.py`).  HTML documents are modelled at the level at which the
Python code observes them through BeautifulSoup: tables of rows of cells,
image tags, font tags, the text of the `text_xp` div, the raw serialized
markup, and the serialized parent of the first text node matching the looked
up nickname.  Pure string heuristics (`in` tests, `str.lower`, the regexes,
`int`/`float` conversion) are translated character by character.
-/

/-! ## Python string primitives -/

/-- `str.lower` for the characters this code base manipulates: ASCII
letters and the Cyrillic range `А`–`Я` (plus `Ё`).  Other characters are
left unchanged, as no string in the scraper contains further cased text. -/
def pyLower (c : Char) : Char :=
  if 'A' ≤ c ∧ c ≤ 'Z' then Char.ofNat (c.toNat + 32)
  else if 'А' ≤ c ∧ c ≤ 'Я' then Char.ofNat (c.toNat + 32)
  else if c = 'Ё' then 'ё'
  else c

/-- Lower-case an entire string (`s.lower()`). -/
def strLower (s : String) : String := String.mk (s.toList.map pyLower)

/-- `leadMatch n h` holds when the character list `n` is an initial run of `h`. -/
def leadMatch : List Char → List Char → Bool
  | [], _ => true
  | _ :: _, [] => false
  | a :: as, b :: bs => a == b && leadMatch as bs

/-- `subMatch n h` holds when `n` occurs contiguously somewhere inside `h` —
the semantics of Python's `n in h` on strings. -/
def subMatch (n : List Char) : List Char → Bool
  | [] => leadMatch n []
  | b :: t => leadMatch n (b :: t) || subMatch n t

/-- Python's `needle in hay` substring test. -/
def strContains (hay needle : String) : Bool := subMatch needle.toList hay.toList

/-- Case-insensitive substring test (both sides lowered). -/
def containsCI (hay needle : String) : Bool := strContains (strLower hay) (strLower needle)

/-- The six characters matched by the regex class `\s` on ASCII text. -/
def isPySpace (c : Char) : Bool :=
  c = ' ' || c = '\t' || c = '\n' || c = '\r' || c = '\x0b' || c = '\x0c'

/-- Value of a decimal digit string (`int` on an all-digit string). -/
def digitsToNat (l : List Char) : Nat :=
  l.foldl (fun n c => n * 10 + (c.toNat - 48)) 0

/-- `int(re.sub(r'[^\d]', '', value) or 0)`: strip every non-digit and read
the rest as a decimal number, `0` when nothing is left. -/
def stripNonDigitsToNat (s : String) : Nat :=
  digitsToNat (s.toList.filter Char.isDigit)

/-- Python's `str.isdigit` restricted to ASCII: non-empty and all digits. -/
def pyIsDigitStr (s : String) : Bool :=
  !s.isEmpty && s.toList.all Char.isDigit

/-- Unsigned part of `float()` parsing: digits, an optional dot, digits. -/
def parseUnsigned (l : List Char) : Option Rat :=
  let intPart := l.takeWhile Char.isDigit
  let rest := l.dropWhile Char.isDigit
  match rest with
  | [] => if intPart.isEmpty then none else some (digitsToNat intPart : Rat)
  | '.' :: fr =>
    if fr.all Char.isDigit && (!intPart.isEmpty || !fr.isEmpty) then
      some ((digitsToNat intPart : Rat) + (digitsToNat fr : Rat) / ((10 : Rat) ^ fr.length))
    else none
  | _ => none

/-- Python `float()` on the plain decimal literals this site produces
(optional surrounding whitespace, optional sign, digits with an optional
fractional part).  Exponents, `inf`/`nan` and digit underscores are not
modelled; no value in the scraped tables uses them. -/
def pyFloat? (s : String) : Option Rat :=
  let l := ((s.toList.dropWhile isPySpace).reverse.dropWhile isPySpace).reverse
  match l with
  | '-' :: r => (parseUnsigned r).map (fun q => -q)
  | '+' :: r => parseUnsigned r
  | r => parseUnsigned r

/-! ## Document model

The fields record exactly what `get_player_stats` / `get_leaderboard`
observe through BeautifulSoup. -/

/-- An `<img>` element: its `src` and `alt` attributes (absent when the
attribute is missing). -/
structure ImgTag where
  src : Option String := none
  alt : Option String := none
deriving DecidableEq

/-- A `<font>` element: its `style` attribute and stripped text. -/
structure FontTag where
  style : Option String := none
  text : String := ""
deriving DecidableEq

/-- A `<td>` cell: its stripped text, the text of its first anchor (if any)
and its first image (if any). -/
structure Cell where
  text : String := ""
  link : Option String := none
  img : Option ImgTag := none
deriving DecidableEq

/-- A `<tr>` table row. -/
structure HtmlRow where
  cells : List Cell := []
deriving DecidableEq

/-- A `<table>` element. -/
structure HtmlTable where
  rows : List HtmlRow := []
deriving DecidableEq

/-- A parsed page as the scraper observes it.
`raw` is `str(soup)`; `nickParent` is `str(parent)` for the parent of the
first text node matching the looked-up nickname (the result of
`soup.find(text=re.compile(nickname, re.I))`), `none` when no text node
matches; `textXp` is the stripped text of the first `div.text_xp`;
`equipDivs` lists the stripped texts of the divs whose class matches
`equipment|loadout`; `imgs` and `fonts` list every image and font element
in document order. -/
structure Soup where
  tables : List HtmlTable := []
  imgs : List ImgTag := []
  fonts : List FontTag := []
  textXp : Option String := none
  equipDivs : List String := []
  raw : String := ""
  nickParent : Option String := none
deriving DecidableEq

/-- All table rows of the document, in document order
(`for table in soup.find_all('table'): for row in table.find_all('tr')`). -/
def allRows (soup : Soup) : List HtmlRow := (soup.tables.map HtmlTable.rows).flatten

/-! ## Rank extraction from image URLs (`_extract_rank_from_image`) -/

/-- The filename → rank lookup table of `_extract_rank_from_image`. -/
def rank_mappings : List (String × String) :=
  [("a3UCeT5.png", "Warrant Officer 5"),
   ("O6Tb9li.png", "Colonel"),
   ("rCN2gJm.png", "Lieutenant Colonel"),
   ("R69LmLt.png", "Major"),
   ("Ljy2jDX.png", "Captain"),
   ("lTXxLVJ.png", "First Lieutenant"),
   ("iTyjOt3.png", "Second Lieutenant"),
   ("BIr8vRX.png", "Warrant Officer 4"),
   ("sppjRis.png", "Warrant Officer 3"),
   ("LATOpxZ.png", "Warrant Officer 2"),
   ("ekbJYyf.png", "Warrant Officer 1"),
   ("GzJRzgz.png", "Master Sergeant"),
   ("pxzNyxi.png", "Sergeant First Class"),
   ("UWup9qJ.png", "Staff Sergeant"),
   ("dSE90bT.png", "Sergeant"),
   ("paF1myt.png", "Corporal"),
   ("wPZnaG0.png", "Lance Corporal"),
   ("Or6Ajto.png", "Private First Class"),
   ("AYAs02w.png", "Private"),
   ("M4GBQIq.png", "Recruit"),
   ("Q2YgFQ1.png", "Legend"),
   ("rO3Hs5f.png", "Generalissimo"),
   ("OQEHkm7.png", "General"),
   ("BNZpCPo.png", "Lieutenant General"),
   ("eQXJOZE.png", "Major General"),
   ("Sluzy", "Brigadier General")]

/-- Python's `s.split(sep)` for a single-character separator: split on every
occurrence, keeping empty segments. -/
def splitChar (c : Char) : List Char → List (List Char)
  | [] => [[]]
  | x :: t =>
    let r := splitChar c t
    if x == c then [] :: r
    else
      match r with
      | h :: t2 => (x :: h) :: t2
      | [] => [[x]]

/-- `_extract_rank_from_image`: when the URL mentions `imgur.com`, look the
last `/`-separated segment (`img_src.split('/')[-1]`) up in the table,
defaulting to `Unknown Rank`. -/
def extract_rank_from_image (img_src : String) : String :=
  if strContains img_src "imgur.com" then
    let filename := String.mk (((splitChar '/' img_src.toList).getLast?).getD [])
    ((rank_mappings.find? (fun p => p.1 == filename)).map Prod.snd).getD "Unknown Rank"
  else "Unknown Rank"

/-! ## Activity status (`_detect_activity_status`) -/

/-- Online signal tokens, as listed in `_detect_activity_status`. -/
def online_indicators : List String :=
  ["color: green", "color:green", "background: green", "background:green",
   "rgb(0, 255, 0)", "rgb(0,255,0)", "#00ff00", "#0f0",
   "онлайн", "online", "в сети", "active", "зеленый"]

/-- Offline signal tokens, as listed in `_detect_activity_status`. -/
def offline_indicators : List String :=
  ["color: gray", "color:gray", "color: grey", "color:grey",
   "background: gray", "background:gray", "background: grey", "background:grey",
   "rgb(128, 128, 128)", "rgb(128,128,128)", "#808080", "#888",
   "оффлайн", "offline", "не в сети", "inactive", "последний раз", "серый"]

/-- Does any of the tokens occur in the lower-cased text
(`for indicator in indicators: if indicator in text.lower()`)? -/
def hasTok (toks : List String) (s : String) : Bool :=
  toks.any (fun t => strContains (strLower s) t)

/-- The document-wide two-pass scan: online tokens first, then offline. -/
def globalScan (s : String) : String :=
  if hasTok online_indicators s then "🟢 Online"
  else if hasTok offline_indicators s then "⚫ Offline"
  else "❓ Unknown"

/-- `_detect_activity_status`: scan the markup of the element containing the
nickname first (online before offline), then the whole document, default
`Unknown`.  The nickname parameter only selects `nickParent`, which the
document model precomputes. -/
def detect_activity_status (soup : Soup) (_nickname : String) : String :=
  match soup.nickParent with
  | some p =>
    if hasTok online_indicators p then "🟢 Online"
    else if hasTok offline_indicators p then "⚫ Offline"
    else globalScan soup.raw
  | none => globalScan soup.raw

/-! ## Player record -/

/-- The dictionary built by `get_player_stats` (lines 157–175), one field per
key.  `kd_ratio` is a Python float, modelled as a rational. -/
structure PlayerData where
  nickname : String
  rank : String
  experience : Nat
  kills : Nat
  deaths : Nat
  kd_ratio : Rat
  premium : Bool
  goldboxes : Nat
  crystals_rank : String
  efficiency_rank : String
  experience_rank : String
  kills_rank : String
  equipment : String
  activity_status : String
  hit : String
  destroyed : Nat
  group : String
deriving DecidableEq

/-- The initial record with its concrete defaults (lines 157–175). -/
def initPlayerData (soup : Soup) (nickname : String) : PlayerData :=
  { nickname := nickname
    rank := "Unknown"
    experience := 0
    kills := 0
    deaths := 0
    kd_ratio := 0
    premium := false
    goldboxes := 0
    crystals_rank := "N/A"
    efficiency_rank := "N/A"
    experience_rank := "N/A"
    kills_rank := "N/A"
    equipment := ""
    activity_status := detect_activity_status soup nickname
    hit := "N/A"
    destroyed := 0
    group := "Player" }

/-! ## Rank signals (lines 177–189) -/

/-- `soup.find('img', src=re.compile(r'imgur\.com'))`: the `src` of the first
image whose source mentions `imgur.com`. -/
def findRankImg (soup : Soup) : Option String :=
  (soup.imgs.filterMap ImgTag.src).find? (fun s => strContains s "imgur.com")

/-- The text of the first `font` with `gray` in its style whose stripped text
is non-empty with `2 < len < 30` (the loop over `gray_fonts`). -/
def grayRankText (soup : Soup) : Option String :=
  ((soup.fonts.filter (fun f =>
      match f.style with
      | some st => strContains (strLower st) "gray"
      | none => false)).find? (fun f =>
        !f.text.isEmpty && decide (2 < f.text.length) && decide (f.text.length < 30))).map FontTag.text

/-- Both rank signals applied in program order: the image lookup first, then
the gray-text pass, which overwrites the rank when it fires. -/
def rankApplied (soup : Soup) (nickname : String) : PlayerData :=
  let d0 := initPlayerData soup nickname
  let d1 := match findRankImg soup with
    | some src => { d0 with rank := extract_rank_from_image src }
    | none => d0
  match grayRankText soup with
  | some t => { d1 with rank := t }
  | none => d1

/-! ## Experience extraction (lines 191–222)

The regex `(\d{1,3}(?:\s\d{3})*)` is translated to a scanner: find the first
digit, greedily take up to three digits, then greedily consume
whitespace + three-digit groups.  The star can always match zero groups, so
the regex engine never backtracks and the scanner is exact. -/

/-- Greedily take up to `n` characters satisfying `p` from the front. -/
def takeUpTo : Nat → (Char → Bool) → List Char → List Char × List Char
  | 0, _, l => ([], l)
  | _ + 1, _, [] => ([], [])
  | n + 1, p, c :: l =>
    if p c then
      let (a, b) := takeUpTo n p l
      (c :: a, b)
    else ([], c :: l)

/-- The `(?:\s\d{3})*` part: greedily consume whitespace-plus-three-digit
groups, returning the consumed characters and the remainder. -/
def starGroups : List Char → List Char × List Char
  | w :: a :: b :: c :: rest =>
    if isPySpace w && a.isDigit && b.isDigit && c.isDigit then
      let (m, r) := starGroups rest
      (w :: a :: b :: c :: m, r)
    else ([], w :: a :: b :: c :: rest)
  | l => ([], l)

/-- `re.search(r'(\d{1,3}(?:\s\d{3})*)', text)`: the leftmost match. -/
def expMatch : List Char → Option (List Char)
  | [] => none
  | c :: rest =>
    if c.isDigit then
      let (ds, rest2) := takeUpTo 2 Char.isDigit rest
      let (gs, _) := starGroups rest2
      some (c :: (ds ++ gs))
    else expMatch rest

/-- `int(match.group(1).replace(' ', ''))`: drop the spaces and convert.
`int` raises — the error case — when a non-space separator (for example a
tab, which `\s` accepts) survives the replacement. -/
def expConvert (m : List Char) : Except Unit Nat :=
  let cleaned := m.filter (fun c => c != ' ')
  if !cleaned.isEmpty && cleaned.all Char.isDigit then Except.ok (digitsToNat cleaned)
  else Except.error ()

/-- Method 1: the `div.text_xp` progress bar text. -/
def expMethod1 (soup : Soup) : Except Unit (Option Nat) :=
  match soup.textXp with
  | none => Except.ok none
  | some t =>
    match expMatch t.toList with
    | none => Except.ok none
    | some m => (expConvert m).map some

/-- Does a row qualify for experience method 2: at least three cells, an
experience label in cell 0, and a number recognizable in cell 2? -/
def expRowOk (r : HtmlRow) : Bool :=
  match r.cells with
  | c0 :: _ :: c2 :: _ =>
    (strContains (strLower c0.text) "по опыту" || strContains (strLower c0.text) "опыт")
      && (expMatch c2.text.toList).isSome
  | _ => false

/-- Method 2: scan the tables for the first row carrying an experience label
and a recognizable number, then convert it (lines 205–222). -/
def expMethod2 (soup : Soup) : Except Unit (Option Nat) :=
  match (allRows soup).find? expRowOk with
  | some r =>
    match r.cells with
    | _ :: _ :: c2 :: _ =>
      match expMatch c2.text.toList with
      | some m => (expConvert m).map some
      | none => Except.ok none
    | _ => Except.ok none
  | none => Except.ok none

/-- The two experience methods in program order; an `int` failure in either
escapes to the function-level handler. -/
def experienceResult (soup : Soup) : Except Unit (Option Nat) :=
  match expMethod1 soup with
  | Except.error e => Except.error e
  | Except.ok (some n) => Except.ok (some n)
  | Except.ok none => expMethod2 soup

/-- Store the experience when one of the methods produced it. -/
def setExp (d : PlayerData) : Option Nat → PlayerData
  | some n => { d with experience := n }
  | none => d

/-! ## Stats table scan (lines 224–248) -/

/-- One row of the kills/deaths/KD/premium/gold scan: match the lowered text
of cell 0 against the keyword families and update the record from cell 1. -/
def statRowStep (d : PlayerData) (r : HtmlRow) : PlayerData :=
  match r.cells with
  | c0 :: c1 :: _ =>
    let key := strLower c0.text
    let value := c1.text
    if strContains key "уничтожил" || strContains key "kills" then
      let kv := stripNonDigitsToNat value
      { d with kills := kv, destroyed := kv }
    else if strContains key "подбит" || strContains key "deaths" then
      { d with deaths := stripNonDigitsToNat value }
    else if strContains key "у/п" || strContains key "k/d" || strContains key "эффективность" then
      match pyFloat? (value.map (fun c => if c = ',' then '.' else c)) with
      | some q => { d with kd_ratio := q }
      | none => d
    else if strContains key "премиум" || strContains key "premium" then
      { d with premium := strContains (strLower value) "да" || strContains (strLower value) "yes" }
    else if strContains key "золот" || strContains key "gold" then
      { d with goldboxes := stripNonDigitsToNat value }
    else d
  | _ => d

/-! ## Ranking positions scan (lines 250–268) -/

/-- One row of the ranking-position scan: rows with at least three cells,
category in cell 0, position (with `#` stripped, `0` → `N/A`) in cell 1. -/
def rankRowStep (d : PlayerData) (r : HtmlRow) : PlayerData :=
  match r.cells with
  | c0 :: c1 :: _ :: _ =>
    let category := strLower c0.text
    let rank := String.mk (c1.text.toList.filter (fun c => c != '#'))
    if strContains category "по опыту" then
      { d with experience_rank := if rank = "0" then "N/A" else rank }
    else if strContains category "голдоловов" || strContains category "золот" then d
    else if strContains category "по киллам" then
      { d with kills_rank := if rank = "0" then "N/A" else rank }
    else if strContains category "по эффективности" then
      { d with efficiency_rank := if rank = "0" then "N/A" else rank }
    else d
  | _ => d

/-! ## Equipment (lines 270–288) -/

/-- The alt-text keyword set `turret|hull|пушка|корпус|орудие|танк` (`re.I`). -/
def equipAltMatches (alt : String) : Bool :=
  ["turret", "hull", "пушка", "корпус", "орудие", "танк"].any
    (fun t => strContains (strLower alt) t)

/-- Collect equipment text: the non-empty texts of the `equipment|loadout`
divs, then the alt texts of matching images (deduplicated against the list),
joined with `" | "` and capped at five items. -/
def equipmentString (soup : Soup) : String :=
  let parts0 := soup.equipDivs.filter (fun t => !t.isEmpty)
  let alts := (soup.imgs.filterMap ImgTag.alt).filter equipAltMatches
  let parts := alts.foldl
    (fun acc a => if !a.isEmpty && !acc.contains a then acc ++ [a] else acc) parts0
  if !parts.isEmpty then String.intercalate " | " (parts.take 5) else ""

/-! ## `get_player_stats` -/

/-- Everything that runs after the experience extraction: the stats scan, the
ranking scan and the equipment collection, in program order. -/
def afterExp (soup : Soup) (d : PlayerData) : PlayerData :=
  let d4 := (allRows soup).foldl statRowStep d
  let d5 := (allRows soup).foldl rankRowStep d4
  { d5 with equipment := equipmentString soup }

/-- The body of `get_player_stats` inside its `try`: build the record, apply
the rank signals, extract experience (possible `int` failure), then the
remaining scans.  An error corresponds to an exception reaching the
function-level handler. -/
def statsBody (soup : Soup) (nickname : String) : Except Unit PlayerData :=
  match experienceResult soup with
  | Except.error e => Except.error e
  | Except.ok expOpt => Except.ok (afterExp soup (setExp (rankApplied soup nickname) expOpt))

/-- `get_player_stats`: `none` when the fetch failed (or returned empty
content), otherwise the parsed record — or `none` again when an internal
exception hit the `except` clause (lines 292–294). -/
def get_player_stats (fetched : Option Soup) (nickname : String) : Option PlayerData :=
  match fetched with
  | none => none
  | some soup =>
    match statsBody soup nickname with
    | Except.ok d => some d
    | Except.error _ => none

/-! ## `get_leaderboard` (lines 296–376) -/

/-- One element of the leaderboard result. -/
structure LBEntry where
  position : Nat
  nickname : String
  rank : String
  value : Nat
  formatted_value : String
deriving DecidableEq

/-- `position.isdigit() and 1 <= int(position) <= 100`. -/
def isValidPosition (s : String) : Bool :=
  pyIsDigitStr s && decide (1 ≤ digitsToNat s.toList) && decide (digitsToNat s.toList ≤ 100)

/-- The text of a row's first cell (used to state the position filter). -/
def posTextOf (r : HtmlRow) : String :=
  match r.cells with
  | c :: _ => c.text
  | [] => ""

/-- One leaderboard row (lines 325–364): at least three cells, an anchor in
the player cell, rank from the cell's image, value from cell 2 with
non-digit-non-space characters stripped and spaces removed (`0` when the
remainder is empty or not a number), kept only for a valid position. -/
def rowEntry (r : HtmlRow) : Option LBEntry :=
  match r.cells with
  | c0 :: c1 :: c2 :: _ =>
    match c1.link with
    | none => none
    | some nickname =>
      let rank := match c1.img with
        | some im =>
          match im.src with
          | some s => if s.toList.isEmpty then "Unknown" else extract_rank_from_image s
          | none => "Unknown"
        | none => "Unknown"
      let valueText := c2.text
      let valueClean := (valueText.toList.filter (fun c => c.isDigit || isPySpace c)).filter
        (fun c => c != ' ')
      let value := if !valueClean.isEmpty && valueClean.all Char.isDigit
        then digitsToNat valueClean else 0
      if isValidPosition c0.text then
        some { position := digitsToNat c0.text.toList
               nickname := nickname
               rank := rank
               value := value
               formatted_value := valueText }
      else none
  | _ => none

/-- Ascending order on positions, the sort key of line 371. -/
def posLe (a b : LBEntry) : Prop := a.position ≤ b.position

instance : DecidableRel posLe := fun a b => Nat.decLe a.position b.position

instance : IsTotal LBEntry posLe := ⟨fun a b => Nat.le_total a.position b.position⟩

instance : IsTrans LBEntry posLe := ⟨fun _ _ _ h h2 => Nat.le_trans h h2⟩

/-- Parse a leaderboard page: accepted rows, stably sorted by position
(Python's `list.sort` is stable; `List.insertionSort` with `≤` on the key is
the same stable sort), truncated to the first ten. -/
def parseLeaderboard (soup : Soup) : List LBEntry :=
  (List.insertionSort posLe ((allRows soup).filterMap rowEntry)).take 10

/-- `get_leaderboard`: `none` when the fetch failed, otherwise the parsed
list (the requested category does not influence the fetched page). -/
def get_leaderboard (fetched : Option Soup) : Option (List LBEntry) :=
  fetched.map parseLeaderboard

/-! ## Result cache and stats service

The repository's `src/` contains no cache implementation — only the TTL
constants in `src/config.py` (`CACHE_CONFIG`) and the spec's description of
the Result Cache (§3, §4.4) and Stats Service (§4.5) remain.  The following
definitions are therefore modelled from the spec. -/

/-- `player_cache_ttl` from `CACHE_CONFIG` (seconds). -/
def player_cache_ttl : Nat := 300

/-- `leaderboard_cache_ttl` from `CACHE_CONFIG` (seconds). -/
def leaderboard_cache_ttl : Nat := 900

/-- Modelled from the spec: the Result Cache of §4.4, absent from `src/`.
Entries pair a key with a value and its `storedAt` timestamp; `put`
prepends, `get` reads the most recent entry for the key and returns it only
while `now - storedAt < ttl`; expired entries are not physically removed. -/
structure ResultCache (α : Type) where
  entries : List (String × α × Nat)

/-- Modelled from the spec: `put(key, value)` stores the value with the
current timestamp. -/
def ResultCache.put {α : Type} (c : ResultCache α) (k : String) (v : α) (now : Nat) :
    ResultCache α :=
  ⟨(k, v, now) :: c.entries⟩

/-- Most recent stored entry for a key, with its timestamp. -/
def ResultCache.lookup {α : Type} (c : ResultCache α) (k : String) : Option (α × Nat) :=
  (c.entries.find? (fun e => e.1 == k)).map Prod.snd

/-- Modelled from the spec: `get(key)` returns the stored value while its
age is below the TTL and absent otherwise (lazy expiry, §4.4). -/
def ResultCache.get {α : Type} (c : ResultCache α) (k : String) (now ttl : Nat) : Option α :=
  match c.lookup k with
  | some (v, t) => if now - t < ttl then some v else none
  | none => none

/-- Modelled from the spec: the player operation of the Stats Service
(§4.5) — check the cache under `player:<nickname>`; on a hit return the
cached record without fetching or parsing; on a miss run the scraper and
cache a successful record.  The `Bool` result records whether the
fetch+parse path ran. -/
def getPlayerStatsCached (cache : ResultCache PlayerData) (nickname : String) (now : Nat)
    (fetched : Option Soup) : Option PlayerData × ResultCache PlayerData × Bool :=
  let key := "player:" ++ nickname
  match cache.get key now player_cache_ttl with
  | some v => (some v, cache, false)
  | none =>
    match get_player_stats fetched nickname with
    | some d => (some d, cache.put key d now, true)
    | none => (none, cache, true)

/-! ## Concrete documents for the examples, witnesses and counterexamples -/

/-- Markup with no profile marker and no occurrence of any looked-up
nickname: one paragraph of unrelated text. -/
def soupNoNick : Soup := { raw := "<html><body>nothing here</body></html>" }

/-- A second nickname-free page, used to instantiate the amended claim. -/
def soupC1w : Soup := { raw := "<html><body>maintenance page</body></html>" }

/-- The leaderboard scenario of §8: rows Alice/1/10,000, Bob/2/9,500 and
Eve/150/1. -/
def soupLB : Soup :=
  { tables := [⟨[⟨[{ text := "1" }, { text := "", link := some "Alice" }, { text := "10,000" }]⟩,
                 ⟨[{ text := "2" }, { text := "", link := some "Bob" }, { text := "9,500" }]⟩,
                 ⟨[{ text := "150" }, { text := "", link := some "Eve" }, { text := "1" }]⟩]⟩] }

/-- The Eve row alone (position `150`, outside `[1,100]`). -/
def eveRow : HtmlRow := ⟨[{ text := "150" }, { text := "", link := some "Eve" }, { text := "1" }]⟩

/-- A leaderboard page with two distinct rows sharing position `1`. -/
def soupDupPos : Soup :=
  { tables := [⟨[⟨[{ text := "1" }, { text := "", link := some "A" }, { text := "5" }]⟩,
                 ⟨[{ text := "1" }, { text := "", link := some "B" }, { text := "6" }]⟩]⟩] }

/-- The §8 kills scenario as written: a single row labelled `Destroyed`. -/
def soupDestroyed : Soup :=
  { tables := [⟨[⟨[{ text := "Destroyed" }, { text := "1,234" }]⟩]⟩] }

/-- Two rows whose label actually matches the kills keyword set, the later
one carrying `999`. -/
def soupKillsTwice : Soup :=
  { tables := [⟨[⟨[{ text := "Kills" }, { text := "1,234" }]⟩,
                 ⟨[{ text := "Kills" }, { text := "999" }]⟩]⟩] }

/-- A page carrying both rank signals: an imgur image mapping to `Colonel`
and a gray-styled font of plausible rank length. -/
def soupBothRanks : Soup :=
  { imgs := [{ src := some "https://i.imgur.com/O6Tb9li.png" }],
    fonts := [{ style := some "color: gray", text := "Some Gray Rank" }] }

/-- A page whose only rank signal is the `Colonel` imgur image. -/
def soupImgOnly : Soup :=
  { imgs := [{ src := some "https://i.imgur.com/O6Tb9li.png" }] }

/-- A page whose nickname-adjacent markup carries an online color token. -/
def soupOnlineNear : Soup :=
  { raw := "<html>zzz</html>", nickParent := some "<td style=color: green>Nick</td>" }

/-- The §8 experience scenario: a `text_xp` bar reading `2 106 / 3 700`. -/
def soupXpBar : Soup := { textXp := some "2 106 / 3 700" }

/-- A `text_xp` bar whose grouped number uses a tab separator: the regex
accepts it but `int` raises, so the whole lookup collapses to `None`. -/
def soupXpTab : Soup := { textXp := some "2\t106" }

/-- A page with no tables, images, fonts, progress bar or equipment. -/
def soupEmpty : Soup := {}

/-- An arbitrary concrete player record for exercising the cache. -/
def samplePlayerData : PlayerData :=
  { nickname := "Alice", rank := "Colonel", experience := 2106, kills := 999, deaths := 10,
    kd_ratio := 2, premium := true, goldboxes := 3, crystals_rank := "N/A",
    efficiency_rank := "N/A", experience_rank := "5", kills_rank := "N/A", equipment := "",
    activity_status := "🟢 Online", hit := "N/A", destroyed := 999, group := "Player" }

/-! ## Derived descriptions used in the theorem statements -/

/-- Does a row enter the kills branch of the stats scan: at least two cells
and a kills keyword in the lowered label? -/
def isKillsRow (r : HtmlRow) : Bool :=
  match r.cells with
  | c0 :: _ :: _ =>
    strContains (strLower c0.text) "уничтожил" || strContains (strLower c0.text) "kills"
  | _ => false

/-- The kills value a matching row contributes. -/
def killsValueOf (r : HtmlRow) : Nat :=
  match r.cells with
  | _ :: c1 :: _ => stripNonDigitsToNat c1.text
  | _ => 0

/-- The rank the two signals produce: the first qualifying gray text when
one exists, else the image lookup, else the default. -/
def rankSpec (soup : Soup) : String :=
  match grayRankText soup with
  | some t => t
  | none =>
    match findRankImg soup with
    | some s => extract_rank_from_image s
    | none => "Unknown"

/-- The narrow scope is silent: no text node matched the nickname, or the
matching element's markup holds neither an online nor an offline token. -/
def narrowSilent (soup : Soup) : Prop :=
  soup.nickParent = none ∨
    ∃ p, soup.nickParent = some p ∧ hasTok online_indicators p = false ∧
      hasTok offline_indicators p = false

/-- Does a character list open with a whitespace-plus-three-digit group —
exactly the guard of `starGroups`? -/
def startsWsGroup : List Char → Bool
  | w :: a :: b :: c :: _ => isPySpace w && a.isDigit && b.isDigit && c.isDigit
  | _ => false

/-- Does a character list open with a digit? -/
def startsDigit : List Char → Bool
  | c :: _ => c.isDigit
  | [] => false

/-- A three-digit thousands group. -/
def digitTriple (t : Char × Char × Char) : Bool :=
  t.1.isDigit && t.2.1.isDigit && t.2.2.isDigit

/-- The characters of a run of space-separated three-digit groups. -/
def sepGroups (gs : List (Char × Char × Char)) : List Char :=
  (gs.map (fun t => [' ', t.1, t.2.1, t.2.2])).flatten

/-- The same groups with the separators removed. -/
def groupDigits (gs : List (Char × Char × Char)) : List Char :=
  (gs.map (fun t => [t.1, t.2.1, t.2.2])).flatten

/-! ## Helper lemmas -/

/-- A fold preserves any projection its step preserves. -/
theorem foldl_pres {α β γ : Type} (g : β → γ) (f : β → α → β)
    (h : ∀ b a, g (f b a) = g b) : ∀ (l : List α) (b : β), g (l.foldl f b) = g b := by
  intro l
  induction l with
  | nil => intro b; rfl
  | cons a t ih => intro b; rw [List.foldl_cons, ih, h]

/-- The stats scan never touches the identity, rank, experience or ranking
fields of the record. -/
theorem statRowStep_pres (d : PlayerData) (r : HtmlRow) :
    (statRowStep d r).nickname = d.nickname ∧
    (statRowStep d r).rank = d.rank ∧
    (statRowStep d r).experience = d.experience ∧
    (statRowStep d r).group = d.group ∧
    (statRowStep d r).hit = d.hit ∧
    (statRowStep d r).crystals_rank = d.crystals_rank ∧
    (statRowStep d r).activity_status = d.activity_status := by
  obtain ⟨cells⟩ := r
  unfold statRowStep
  rcases cells with _ | ⟨c0, _ | ⟨c1, rest⟩⟩
  · exact ⟨rfl, rfl, rfl, rfl, rfl, rfl, rfl⟩
  · exact ⟨rfl, rfl, rfl, rfl, rfl, rfl, rfl⟩
  · dsimp only
    split
    · exact ⟨rfl, rfl, rfl, rfl, rfl, rfl, rfl⟩
    · split
      · exact ⟨rfl, rfl, rfl, rfl, rfl, rfl, rfl⟩
      · split
        · split
          · exact ⟨rfl, rfl, rfl, rfl, rfl, rfl, rfl⟩
          · exact ⟨rfl, rfl, rfl, rfl, rfl, rfl, rfl⟩
        · split
          · exact ⟨rfl, rfl, rfl, rfl, rfl, rfl, rfl⟩
          · split
            · exact ⟨rfl, rfl, rfl, rfl, rfl, rfl, rfl⟩
            · exact ⟨rfl, rfl, rfl, rfl, rfl, rfl, rfl⟩

/-- The ranking-position scan only touches the three `_rank` fields it
writes. -/
theorem rankRowStep_pres (d : PlayerData) (r : HtmlRow) :
    (rankRowStep d r).nickname = d.nickname ∧
    (rankRowStep d r).rank = d.rank ∧
    (rankRowStep d r).experience = d.experience ∧
    (rankRowStep d r).kills = d.kills ∧
    (rankRowStep d r).group = d.group ∧
    (rankRowStep d r).hit = d.hit ∧
    (rankRowStep d r).crystals_rank = d.crystals_rank ∧
    (rankRowStep d r).activity_status = d.activity_status := by
  obtain ⟨cells⟩ := r
  unfold rankRowStep
  rcases cells with _ | ⟨c0, _ | ⟨c1, _ | ⟨c2, rest⟩⟩⟩
  · exact ⟨rfl, rfl, rfl, rfl, rfl, rfl, rfl, rfl⟩
  · exact ⟨rfl, rfl, rfl, rfl, rfl, rfl, rfl, rfl⟩
  · exact ⟨rfl, rfl, rfl, rfl, rfl, rfl, rfl, rfl⟩
  · dsimp only
    split
    · exact ⟨rfl, rfl, rfl, rfl, rfl, rfl, rfl, rfl⟩
    · split
      · exact ⟨rfl, rfl, rfl, rfl, rfl, rfl, rfl, rfl⟩
      · split
        · exact ⟨rfl, rfl, rfl, rfl, rfl, rfl, rfl, rfl⟩
        · split
          · exact ⟨rfl, rfl, rfl, rfl, rfl, rfl, rfl, rfl⟩
          · exact ⟨rfl, rfl, rfl, rfl, rfl, rfl, rfl, rfl⟩

/-- `setExp` only writes the experience field. -/
theorem setExp_pres (d : PlayerData) (eo : Option Nat) :
    (setExp d eo).nickname = d.nickname ∧
    (setExp d eo).rank = d.rank ∧
    (setExp d eo).kills = d.kills ∧
    (setExp d eo).group = d.group ∧
    (setExp d eo).hit = d.hit ∧
    (setExp d eo).crystals_rank = d.crystals_rank ∧
    (setExp d eo).activity_status = d.activity_status := by
  cases eo <;> exact ⟨rfl, rfl, rfl, rfl, rfl, rfl, rfl⟩

/-- The record after the two rank signals: its rank is `rankSpec`, every
other field still carries its initial value. -/
theorem rankApplied_fields (soup : Soup) (nick : String) :
    (rankApplied soup nick).rank = rankSpec soup ∧
    (rankApplied soup nick).nickname = nick ∧
    (rankApplied soup nick).experience = 0 ∧
    (rankApplied soup nick).kills = 0 ∧
    (rankApplied soup nick).group = "Player" ∧
    (rankApplied soup nick).hit = "N/A" ∧
    (rankApplied soup nick).crystals_rank = "N/A" ∧
    (rankApplied soup nick).activity_status = detect_activity_status soup nick := by
  cases hg : grayRankText soup <;> cases hi : findRankImg soup <;>
    simp [rankApplied, rankSpec, initPlayerData, hg, hi]

/-- `get_player_stats` after a successful fetch, written as a case split on
the experience conversion. -/
theorem gps_eq (soup : Soup) (nick : String) :
    get_player_stats (some soup) nick
      = match experienceResult soup with
        | Except.error _ => none
        | Except.ok eo => some (afterExp soup (setExp (rankApplied soup nick) eo)) := by
  cases h : experienceResult soup <;> simp [get_player_stats, statsBody, h]

/-- The kills field after the stats fold: the value of the last matching
row, or the incoming value when no row matches. -/
theorem kills_foldl (rows : List HtmlRow) :
    ∀ d : PlayerData, (rows.foldl statRowStep d).kills
      = (((rows.reverse.find? isKillsRow).map killsValueOf).getD d.kills) := by
  induction rows with
  | nil => intro d; rfl
  | cons r rs ih =>
    intro d
    rw [List.foldl_cons, ih, List.reverse_cons, List.find?_append]
    cases hfind : rs.reverse.find? isKillsRow with
    | some x => simp
    | none =>
      cases hk : isKillsRow r with
      | true =>
        have hstep : (statRowStep d r).kills = killsValueOf r := by
          obtain ⟨cells⟩ := r
          unfold statRowStep killsValueOf
          unfold isKillsRow at hk
          rcases cells with _ | ⟨c0, _ | ⟨c1, rest⟩⟩
          · simp at hk
          · simp at hk
          · simp only at hk ⊢
            rw [if_pos hk]
        simp [List.find?, hk, hstep]
      | false =>
        have hstep : (statRowStep d r).kills = d.kills := by
          obtain ⟨cells⟩ := r
          unfold statRowStep
          unfold isKillsRow at hk
          rcases cells with _ | ⟨c0, _ | ⟨c1, rest⟩⟩
          · rfl
          · rfl
          · simp only at hk ⊢
            rw [if_neg (by simp [hk])]
            split
            · rfl
            · split
              · split <;> rfl
              · split
                · rfl
                · split <;> rfl
        simp [List.find?, hk, hstep]

/-- The kills field survives the ranking scan and the equipment write. -/
theorem afterExp_kills (soup : Soup) (d : PlayerData) :
    (afterExp soup d).kills = ((allRows soup).foldl statRowStep d).kills := by
  unfold afterExp
  exact foldl_pres PlayerData.kills rankRowStep
    (fun b a => (rankRowStep_pres b a).2.2.2.1) (allRows soup) _


/-! ## Claim C2 — cache round-trip, expiry, and hit short-circuit -/

/-- C2: for every key and value, `put` followed by `get` while the entry's
age is below the TTL returns the value unchanged; `get` is absent both for
a never-written key and once the age reaches the TTL; and a cache hit makes
the player operation return the cached record without running the
fetch/parse path (modelled from the spec, §4.4/§4.5). -/
theorem c2_cache_roundtrip :
    (∀ (c : ResultCache PlayerData) (k : String) (v : PlayerData) (t now ttl : Nat),
        now - t < ttl → (c.put k v t).get k now ttl = some v) ∧
    (∀ (c : ResultCache PlayerData) (k : String) (now ttl : Nat),
        (∀ e ∈ c.entries, e.1 ≠ k) → c.get k now ttl = none) ∧
    (∀ (c : ResultCache PlayerData) (k : String) (v : PlayerData) (t now ttl : Nat),
        ttl ≤ now - t → (c.put k v t).get k now ttl = none) ∧
    (∀ (cache : ResultCache PlayerData) (nick : String) (now : Nat) (fetched : Option Soup)
        (v : PlayerData),
        cache.get ("player:" ++ nick) now player_cache_ttl = some v →
        getPlayerStatsCached cache nick now fetched = (some v, cache, false)) := by
  refine ⟨?_, ?_, ?_, ?_⟩
  · intro c k v t now ttl h
    simp [ResultCache.put, ResultCache.get, ResultCache.lookup, List.find?, h]
  · intro c k now ttl h
    have hfind : c.entries.find? (fun e => e.1 == k) = none := by
      rw [List.find?_eq_none]
      intro e he
      simpa using h e he
    simp [ResultCache.get, ResultCache.lookup, hfind]
  · intro c k v t now ttl h
    simp [ResultCache.put, ResultCache.get, ResultCache.lookup, List.find?, Nat.not_lt.mpr h]
  · intro cache nick now fetched v h
    simp [getPlayerStatsCached, h]

/-- C2 witness: the cache laws and the hit short-circuit at concrete
inputs. -/
theorem c2_cache_roundtrip_witness :
    ((ResultCache.put ⟨[]⟩ "player:Alice" samplePlayerData 0).get "player:Alice" 10 300
        = some samplePlayerData) ∧
    (ResultCache.get (⟨[]⟩ : ResultCache PlayerData) "player:Bob" 5 300 = none) ∧
    ((ResultCache.put ⟨[]⟩ "player:Alice" samplePlayerData 0).get "player:Alice" 300 300
        = none) ∧
    (getPlayerStatsCached (ResultCache.put ⟨[]⟩ ("player:" ++ "Alice") samplePlayerData 0)
        "Alice" 10 none
      = (some samplePlayerData,
         ResultCache.put ⟨[]⟩ ("player:" ++ "Alice") samplePlayerData 0, false)) := by
  refine ⟨?_, ?_, ?_, ?_⟩
  · exact c2_cache_roundtrip.1 ⟨[]⟩ "player:Alice" samplePlayerData 0 10 300 (by decide)
  · exact c2_cache_roundtrip.2.1 ⟨[]⟩ "player:Bob" 5 300 (by intro e he; simp at he)
  · exact c2_cache_roundtrip.2.2.1 ⟨[]⟩ "player:Alice" samplePlayerData 0 300 300 (by decide)
  · exact c2_cache_roundtrip.2.2.2 _ "Alice" 10 none samplePlayerData
      (c2_cache_roundtrip.1 ⟨[]⟩ ("player:" ++ "Alice") samplePlayerData 0 10 300 (by decide))

/-! ## Claim C3 — leaderboard position filter -/

/-- C3: a leaderboard row whose first cell is not a base-10 integer in
`[1,100]` contributes no entry, and the concrete Alice/Bob/Eve page yields
exactly the Alice and Bob entries. -/
theorem c3_position_filter :
    (∀ r : HtmlRow, isValidPosition (posTextOf r) = false → rowEntry r = none) ∧
    get_leaderboard (some soupLB)
      = some [{ position := 1, nickname := "Alice", rank := "Unknown", value := 10000,
                formatted_value := "10,000" },
              { position := 2, nickname := "Bob", rank := "Unknown", value := 9500,
                formatted_value := "9,500" }] := by
  constructor
  · intro r h
    obtain ⟨cells⟩ := r
    unfold rowEntry
    unfold posTextOf at h
    rcases cells with _ | ⟨c0, _ | ⟨c1, _ | ⟨c2, rest⟩⟩⟩
    · rfl
    · rfl
    · rfl
    · simp only at h ⊢
      cases c1.link with
      | none => rfl
      | some nickname => simp [h]
  · decide

/-- C3 witness: the Eve row (position `150`) is rejected. -/
theorem c3_position_filter_witness : rowEntry eveRow = none :=
  c3_position_filter.1 eveRow (by decide)

/-! ## Claim C4 — leaderboard sortedness, truncation, duplicates kept -/

/-- C4: for any input document the leaderboard result is sorted ascending
by position and at most ten entries long, and duplicate positions are both
kept (two distinct rows with position 1 both appear). -/
theorem c4_sorted_truncated :
    (∀ soup : Soup,
        List.Sorted posLe (parseLeaderboard soup) ∧ (parseLeaderboard soup).length ≤ 10) ∧
    get_leaderboard (some soupDupPos)
      = some [{ position := 1, nickname := "A", rank := "Unknown", value := 5,
                formatted_value := "5" },
              { position := 1, nickname := "B", rank := "Unknown", value := 6,
                formatted_value := "6" }] := by
  constructor
  · intro soup
    exact ⟨List.Pairwise.sublist (List.take_sublist _ _) (List.sorted_insertionSort posLe _),
           List.length_take_le _ _⟩
  · decide

/-! ## Claim C5 — duplicate stat rows: which label matches, last write wins -/

/-- C5 counterexample: the §8 scenario row `["Destroyed", "1,234"]` matches
neither `'уничтожил'` nor `'kills'`, so kills stays `0`, not `1234`. -/
theorem c5_counterexample :
    (get_player_stats (some soupDestroyed) "TestPlayer").map PlayerData.kills = some 0 ∧
    ¬ (get_player_stats (some soupDestroyed) "TestPlayer").map PlayerData.kills = some 1234 := by
  decide

/-- C5 amended: whenever a record is returned, its kills value is the one
of the *last* table row (in document order) whose column-0 label matches
the kills keyword set, `0` when no row matches — last write wins across
duplicate matching rows. -/
theorem c5_last_write_wins (soup : Soup) (nick : String)
    (h : get_player_stats (some soup) nick ≠ none) :
    (get_player_stats (some soup) nick).map PlayerData.kills
      = some ((((allRows soup).reverse.find? isKillsRow).map killsValueOf).getD 0) := by
  rw [gps_eq] at h ⊢
  cases he : experienceResult soup with
  | error e => rw [he] at h; simp at h
  | ok eo =>
    have hk : (afterExp soup (setExp (rankApplied soup nick) eo)).kills
        = (((allRows soup).reverse.find? isKillsRow).map killsValueOf).getD 0 := by
      rw [afterExp_kills, kills_foldl, (setExp_pres _ _).2.2.1,
        (rankApplied_fields soup nick).2.2.2.1]
    simp [hk]

/-- C5 witness: two rows labelled `Kills` carrying `1,234` then `999` leave
kills at `999`. -/
theorem c5_last_write_wins_witness :
    (get_player_stats (some soupKillsTwice) "TestPlayer").map PlayerData.kills = some 999 := by
  have h := c5_last_write_wins soupKillsTwice "TestPlayer" (by decide)
  exact h.trans (by decide)

/-! ## Claim C6 — rank signal precedence -/

/-- C6 counterexample: on a page carrying both signals, the image maps to
`Colonel`, yet the gray-text pass overwrites it — the returned rank is the
gray text, not `Colonel`. -/
theorem c6_counterexample :
    findRankImg soupBothRanks = some "https://i.imgur.com/O6Tb9li.png" ∧
    extract_rank_from_image "https://i.imgur.com/O6Tb9li.png" = "Colonel" ∧
    (get_player_stats (some soupBothRanks) "P").map PlayerData.rank = some "Some Gray Rank" ∧
    ¬ (get_player_stats (some soupBothRanks) "P").map PlayerData.rank = some "Colonel" := by
  decide

/-- C6 amended: the image lookup runs first but the gray-text signal, when
it fires, always overwrites it — the returned rank is the first qualifying
gray text when one exists, else the image-derived rank, else `Unknown`; no
regex step exists. -/
theorem c6_rank_signals (soup : Soup) (nick : String)
    (h : get_player_stats (some soup) nick ≠ none) :
    (get_player_stats (some soup) nick).map PlayerData.rank = some (rankSpec soup) := by
  rw [gps_eq] at h ⊢
  cases he : experienceResult soup with
  | error e => rw [he] at h; simp at h
  | ok eo =>
    have hr : (afterExp soup (setExp (rankApplied soup nick) eo)).rank = rankSpec soup := by
      unfold afterExp
      dsimp only
      rw [foldl_pres PlayerData.rank rankRowStep (fun b a => (rankRowStep_pres b a).2.1),
        foldl_pres PlayerData.rank statRowStep (fun b a => (statRowStep_pres b a).2.1),
        (setExp_pres _ _).2.1, (rankApplied_fields soup nick).1]
    simp [hr]

/-- C6 witness: with only the `Colonel` image present the returned rank is
`Colonel`. -/
theorem c6_rank_signals_witness :
    (get_player_stats (some soupImgOnly) "P").map PlayerData.rank = some "Colonel" := by
  have h := c6_rank_signals soupImgOnly "P" (by decide)
  exact h.trans (by decide)

/-! ## Further preservation lemmas -/

/-- The post-experience scans keep the nickname. -/
theorem afterExp_nickname (soup : Soup) (d : PlayerData) :
    (afterExp soup d).nickname = d.nickname := by
  unfold afterExp
  exact (foldl_pres PlayerData.nickname rankRowStep (fun b a => (rankRowStep_pres b a).1)
    _ _).trans (foldl_pres PlayerData.nickname statRowStep
      (fun b a => (statRowStep_pres b a).1) _ _)

/-- The post-experience scans keep the group. -/
theorem afterExp_group (soup : Soup) (d : PlayerData) :
    (afterExp soup d).group = d.group := by
  unfold afterExp
  exact (foldl_pres PlayerData.group rankRowStep (fun b a => (rankRowStep_pres b a).2.2.2.2.1)
    _ _).trans (foldl_pres PlayerData.group statRowStep
      (fun b a => (statRowStep_pres b a).2.2.2.1) _ _)

/-- The post-experience scans keep the hit placeholder. -/
theorem afterExp_hit (soup : Soup) (d : PlayerData) :
    (afterExp soup d).hit = d.hit := by
  unfold afterExp
  exact (foldl_pres PlayerData.hit rankRowStep (fun b a => (rankRowStep_pres b a).2.2.2.2.2.1)
    _ _).trans (foldl_pres PlayerData.hit statRowStep
      (fun b a => (statRowStep_pres b a).2.2.2.2.1) _ _)

/-- The post-experience scans keep the crystals ranking placeholder. -/
theorem afterExp_crystals (soup : Soup) (d : PlayerData) :
    (afterExp soup d).crystals_rank = d.crystals_rank := by
  unfold afterExp
  exact (foldl_pres PlayerData.crystals_rank rankRowStep
    (fun b a => (rankRowStep_pres b a).2.2.2.2.2.2.1) _ _).trans
    (foldl_pres PlayerData.crystals_rank statRowStep
      (fun b a => (statRowStep_pres b a).2.2.2.2.2.1) _ _)

/-- The post-experience scans keep the activity status. -/
theorem afterExp_activity (soup : Soup) (d : PlayerData) :
    (afterExp soup d).activity_status = d.activity_status := by
  unfold afterExp
  exact (foldl_pres PlayerData.activity_status rankRowStep
    (fun b a => (rankRowStep_pres b a).2.2.2.2.2.2.2) _ _).trans
    (foldl_pres PlayerData.activity_status statRowStep
      (fun b a => (statRowStep_pres b a).2.2.2.2.2.2) _ _)

/-- The post-experience scans keep the experience value. -/
theorem afterExp_experience (soup : Soup) (d : PlayerData) :
    (afterExp soup d).experience = d.experience := by
  unfold afterExp
  exact (foldl_pres PlayerData.experience rankRowStep (fun b a => (rankRowStep_pres b a).2.2.1)
    _ _).trans (foldl_pres PlayerData.experience statRowStep
      (fun b a => (statRowStep_pres b a).2.2.1) _ _)

/-! ## Claim C7 — activity-status tie-break order -/

/-- C7: activity detection is narrow-then-wide and online-before-offline —
in the element containing the nickname any online token wins, else any
offline token; when the narrow scope is absent or silent the same two-pass
search runs over the whole document; with no token anywhere the status is
Unknown. -/
theorem c7_activity_tiebreak (soup : Soup) (nick : String) :
    (∀ p, soup.nickParent = some p → hasTok online_indicators p = true →
        detect_activity_status soup nick = "🟢 Online") ∧
    (∀ p, soup.nickParent = some p → hasTok online_indicators p = false →
        hasTok offline_indicators p = true →
        detect_activity_status soup nick = "⚫ Offline") ∧
    (narrowSilent soup → hasTok online_indicators soup.raw = true →
        detect_activity_status soup nick = "🟢 Online") ∧
    (narrowSilent soup → hasTok online_indicators soup.raw = false →
        hasTok offline_indicators soup.raw = true →
        detect_activity_status soup nick = "⚫ Offline") ∧
    (narrowSilent soup → hasTok online_indicators soup.raw = false →
        hasTok offline_indicators soup.raw = false →
        detect_activity_status soup nick = "❓ Unknown") := by
  refine ⟨?_, ?_, ?_, ?_, ?_⟩
  · intro p hp hon
    simp [detect_activity_status, hp, hon]
  · intro p hp hon hoff
    simp [detect_activity_status, hp, hon, hoff]
  · intro hns hgon
    unfold narrowSilent at hns
    rcases hns with hnone | ⟨p, hp, hon, hoff⟩
    · simp [detect_activity_status, hnone, globalScan, hgon]
    · simp [detect_activity_status, hp, hon, hoff, globalScan, hgon]
  · intro hns hgon hgoff
    unfold narrowSilent at hns
    rcases hns with hnone | ⟨p, hp, hon, hoff⟩
    · simp [detect_activity_status, hnone, globalScan, hgon, hgoff]
    · simp [detect_activity_status, hp, hon, hoff, globalScan, hgon, hgoff]
  · intro hns hgon hgoff
    unfold narrowSilent at hns
    rcases hns with hnone | ⟨p, hp, hon, hoff⟩
    · simp [detect_activity_status, hnone, globalScan, hgon, hgoff]
    · simp [detect_activity_status, hp, hon, hoff, globalScan, hgon, hgoff]

/-- C7 witness: an online color token next to the nickname yields Online. -/
theorem c7_activity_tiebreak_witness :
    detect_activity_status soupOnlineNear "Nick" = "🟢 Online" :=
  (c7_activity_tiebreak soupOnlineNear "Nick").1 "<td style=color: green>Nick</td>" rfl
    (by decide)

/-! ## Claim C1 — lookup on nickname-free markup -/

/-- C1 counterexample: markup with no profile marker and no occurrence of
the nickname still produces a populated record — the lookup does *not*
return absent (there is no existence check in the code). -/
theorem c1_counterexample :
    containsCI soupNoNick.raw "TestPlayer" = false ∧
    get_player_stats (some soupNoNick) "TestPlayer" ≠ none := by
  decide

/-- C1 amended: on successfully fetched markup with no profile marker and
no nickname substring the lookup never raises and returns a (default-
populated) record; it is absent only when an internal conversion error
reached the function-level handler. -/
theorem c1_absent_only_on_error (soup : Soup) (nick : String)
    (_hnick : containsCI soup.raw nick = false) :
    (get_player_stats (some soup) nick = none ↔ statsBody soup nick = Except.error ()) := by
  cases h : statsBody soup nick with
  | ok d => simp [get_player_stats, h]
  | error e => cases e; simp [get_player_stats, h]

/-- C1 witness: the amended claim at a concrete nickname-free page. -/
theorem c1_absent_only_on_error_witness :
    get_player_stats (some soupC1w) "Bob" = none ↔
      statsBody soupC1w "Bob" = Except.error () :=
  c1_absent_only_on_error soupC1w "Bob" (by decide)

/-! ## Claim C9 — totality and the experience-conversion escape -/

/-- C9 counterexample: a tab-separated experience number makes `int` raise;
the function-level handler turns the *whole* lookup into `None` instead of
degrading only the experience field. -/
theorem c9_counterexample :
    soupXpTab.textXp = some "2\t106" ∧
    get_player_stats (some soupXpTab) "Player1" = none := by
  decide

/-- C9 amended: both operations always return a value and never propagate
an exception — the leaderboard parse always yields a sequence on a
successful fetch, a failed fetch yields absent, and a player lookup yields
either a record or absent, the absent case (after a successful fetch)
arising exactly from an internal conversion error caught by the
function-level handler. -/
theorem c9_total_or_internal_error :
    (∀ soup : Soup, ∃ l, get_leaderboard (some soup) = some l) ∧
    (∀ nick : String, get_player_stats none nick = none) ∧
    (get_leaderboard none = none) ∧
    (∀ (soup : Soup) (nick : String),
        (∃ d, get_player_stats (some soup) nick = some d) ∨
        (get_player_stats (some soup) nick = none ∧
          statsBody soup nick = Except.error ())) := by
  refine ⟨fun soup => ⟨parseLeaderboard soup, rfl⟩, fun nick => rfl, rfl, ?_⟩
  intro soup nick
  cases h : statsBody soup nick with
  | ok d => exact Or.inl ⟨d, by simp [get_player_stats, h]⟩
  | error e => cases e; exact Or.inr ⟨by simp [get_player_stats, h], rfl⟩

/-! ## Claim C10 — every returned record is fully populated -/

/-- C10: a returned record always echoes the nickname, carries the constant
`group`/`hit`/`crystals_rank` defaults and the computed activity status;
and on a page with no extractable signals the whole record is exactly the
default dictionary of lines 157–175. -/
theorem c10_all_fields_defaulted :
    (∀ (soup : Soup) (nick : String),
        get_player_stats (some soup) nick ≠ none →
        (get_player_stats (some soup) nick).map
            (fun d => (d.nickname, d.group, d.hit, d.crystals_rank, d.activity_status))
          = some (nick, "Player", "N/A", "N/A", detect_activity_status soup nick)) ∧
    (∀ nick : String,
        get_player_stats (some soupEmpty) nick
          = some { nickname := nick, rank := "Unknown", experience := 0, kills := 0,
                   deaths := 0, kd_ratio := 0, premium := false, goldboxes := 0,
                   crystals_rank := "N/A", efficiency_rank := "N/A",
                   experience_rank := "N/A", kills_rank := "N/A", equipment := "",
                   activity_status := "❓ Unknown", hit := "N/A", destroyed := 0,
                   group := "Player" }) := by
  constructor
  · intro soup nick h
    rw [gps_eq] at h ⊢
    cases he : experienceResult soup with
    | error e => rw [he] at h; simp at h
    | ok eo =>
      have hn : (afterExp soup (setExp (rankApplied soup nick) eo)).nickname = nick :=
        (afterExp_nickname _ _).trans
          (((setExp_pres _ _).1).trans (rankApplied_fields soup nick).2.1)
      have hg : (afterExp soup (setExp (rankApplied soup nick) eo)).group = "Player" :=
        (afterExp_group _ _).trans
          (((setExp_pres _ _).2.2.2.1).trans (rankApplied_fields soup nick).2.2.2.2.1)
      have hh : (afterExp soup (setExp (rankApplied soup nick) eo)).hit = "N/A" :=
        (afterExp_hit _ _).trans
          (((setExp_pres _ _).2.2.2.2.1).trans (rankApplied_fields soup nick).2.2.2.2.2.1)
      have hc : (afterExp soup (setExp (rankApplied soup nick) eo)).crystals_rank = "N/A" :=
        (afterExp_crystals _ _).trans
          (((setExp_pres _ _).2.2.2.2.2.1).trans
            (rankApplied_fields soup nick).2.2.2.2.2.2.1)
      have ha : (afterExp soup (setExp (rankApplied soup nick) eo)).activity_status
          = detect_activity_status soup nick :=
        (afterExp_activity _ _).trans
          (((setExp_pres _ _).2.2.2.2.2.2).trans
            (rankApplied_fields soup nick).2.2.2.2.2.2.2)
      simp [hn, hg, hh, hc, ha]
  · intro nick
    rfl

/-- C10 witness: the general part applied to the empty page. -/
theorem c10_all_fields_defaulted_witness :
    (get_player_stats (some soupEmpty) "W").map
        (fun d => (d.nickname, d.group, d.hit, d.crystals_rank, d.activity_status))
      = some ("W", "Player", "N/A", "N/A", detect_activity_status soupEmpty "W") :=
  c10_all_fields_defaulted.1 soupEmpty "W" (by decide)

/-! ## Claim C8 — experience extraction from grouped numbers -/

/-- A digit is never the space character. -/
theorem digit_ne_space {c : Char} (h : c.isDigit = true) : (c != ' ') = true := by
  rw [bne_iff_ne]
  intro heq
  rw [heq] at h
  exact absurd h (by decide)

/-- The three components of a digit triple are digits. -/
theorem digitTriple_parts {t : Char × Char × Char} (h : digitTriple t = true) :
    t.1.isDigit = true ∧ t.2.1.isDigit = true ∧ t.2.2.isDigit = true := by
  unfold digitTriple at h
  rcases Bool.and_eq_true_iff.mp h with ⟨h12, h3⟩
  rcases Bool.and_eq_true_iff.mp h12 with ⟨h1, h2⟩
  exact ⟨h1, h2, h3⟩

/-- The group scanner stops on input that does not open with a group. -/
theorem starGroups_stop (l : List Char) (h : startsWsGroup l = false) :
    starGroups l = ([], l) := by
  cases l with
  | nil => rfl
  | cons w t1 =>
    cases t1 with
    | nil => rfl
    | cons a t2 =>
      cases t2 with
      | nil => rfl
      | cons b t3 =>
        cases t3 with
        | nil => rfl
        | cons c rest =>
          simp only [startsWsGroup] at h
          unfold starGroups
          rw [if_neg (by simp [h])]

/-- The group scanner consumes exactly a run of space-separated three-digit
groups when what follows is not itself a group opening. -/
theorem starGroups_run (gs : List (Char × Char × Char)) (sfx : List Char)
    (hg : ∀ g ∈ gs, digitTriple g = true) (hs : startsWsGroup sfx = false) :
    starGroups (sepGroups gs ++ sfx) = (sepGroups gs, sfx) := by
  induction gs with
  | nil => simpa [sepGroups] using starGroups_stop sfx hs
  | cons g t ih =>
    obtain ⟨a, b, c⟩ := g
    obtain ⟨ha, hb, hc⟩ := digitTriple_parts (hg (a, b, c) (List.mem_cons_self _ _))
    have iht := ih (fun x hx => hg x (List.mem_cons_of_mem _ hx))
    simp only [sepGroups, List.map_cons, List.flatten_cons] at iht ⊢
    rw [List.append_assoc]
    show starGroups (' ' :: a :: b :: c :: ((t.map _).flatten ++ sfx)) = _
    unfold starGroups
    rw [if_pos (by simp [isPySpace, ha, hb, hc])]
    rw [iht]
    rfl

/-- The greedy digit taker takes nothing from a digit-free front. -/
theorem takeUpTo_nodigit (n : Nat) (l : List Char) (h : startsDigit l = false) :
    takeUpTo n Char.isDigit l = ([], l) := by
  cases n with
  | zero => rfl
  | succ m =>
    cases l with
    | nil => rfl
    | cons c t =>
      simp only [startsDigit] at h
      simp only [takeUpTo]
      rw [if_neg (by simp [h])]

/-- The regex scanner skips a digit-free front. -/
theorem expMatch_skip (pre l : List Char) (h : ∀ c ∈ pre, c.isDigit = false) :
    expMatch (pre ++ l) = expMatch l := by
  induction pre with
  | nil => rfl
  | cons c t ih =>
    have hc := h c (List.mem_cons_self _ _)
    simp only [List.cons_append]
    simp only [expMatch]
    rw [if_neg (by simp [hc])]
    exact ih (fun x hx => h x (List.mem_cons_of_mem _ hx))

/-- The regex match at a well-grouped number: a leading run of one to three
digits followed by space-separated three-digit groups, with no digit or
group opening immediately after, matches exactly the number. -/
theorem expMatch_at (dh : List Char) (gs : List (Char × Char × Char)) (sfx : List Char)
    (h1 : dh ≠ []) (h2 : dh.length ≤ 3) (h3 : ∀ c ∈ dh, c.isDigit = true)
    (hg : ∀ g ∈ gs, digitTriple g = true)
    (hnd : startsDigit (sepGroups gs ++ sfx) = false)
    (hs : startsWsGroup sfx = false) :
    expMatch (dh ++ (sepGroups gs ++ sfx)) = some (dh ++ sepGroups gs) := by
  have hstar := starGroups_run gs sfx hg hs
  rcases dh with _ | ⟨d1, t1⟩
  · exact absurd rfl h1
  have hd1 := h3 d1 (List.mem_cons_self _ _)
  rcases t1 with _ | ⟨d2, t2⟩
  · simp only [List.cons_append, List.nil_append]
    simp only [expMatch]
    rw [if_pos (by simp [hd1])]
    rw [takeUpTo_nodigit _ _ hnd]
    dsimp only
    rw [hstar]
    simp
  · have hd2 := h3 d2 (by simp)
    rcases t2 with _ | ⟨d3, t3⟩
    · simp only [List.cons_append, List.nil_append]
      simp only [expMatch]
      rw [if_pos (by simp [hd1])]
      simp only [takeUpTo]
      rw [if_pos (by simp [hd2])]
      rw [takeUpTo_nodigit _ _ hnd]
      dsimp only
      rw [hstar]
      simp
    · have hd3 := h3 d3 (by simp)
      rcases t3 with _ | ⟨d4, t4⟩
      · simp only [List.cons_append, List.nil_append]
        simp only [expMatch]
        rw [if_pos (by simp [hd1])]
        simp only [takeUpTo]
        rw [if_pos (by simp [hd2])]
        simp only [takeUpTo]
        rw [if_pos (by simp [hd3])]
        dsimp only
        rw [hstar]
        simp
      · simp only [List.length_cons] at h2
        omega

/-- Every character of the separator-free digits is a digit. -/
theorem groupDigits_digits (gs : List (Char × Char × Char))
    (hg : ∀ g ∈ gs, digitTriple g = true) :
    ∀ c ∈ groupDigits gs, c.isDigit = true := by
  intro c hc
  simp only [groupDigits, List.mem_flatten, List.mem_map] at hc
  obtain ⟨l, ⟨g, hgm, rfl⟩, hcl⟩ := hc
  obtain ⟨ha, hb, hcd⟩ := digitTriple_parts (hg g hgm)
  simp only [List.mem_cons, List.not_mem_nil, or_false] at hcl
  rcases hcl with rfl | rfl | rfl <;> assumption

/-- Removing the spaces from the matched group run leaves its digits. -/
theorem filter_sepGroups (gs : List (Char × Char × Char))
    (hg : ∀ g ∈ gs, digitTriple g = true) :
    (sepGroups gs).filter (fun c => c != ' ') = groupDigits gs := by
  induction gs with
  | nil => rfl
  | cons g t ih =>
    obtain ⟨a, b, c⟩ := g
    obtain ⟨ha, hb, hc⟩ := digitTriple_parts (hg (a, b, c) (List.mem_cons_self _ _))
    have iht := ih (fun x hx => hg x (List.mem_cons_of_mem _ hx))
    simp only [sepGroups, groupDigits, List.map_cons, List.flatten_cons,
      List.filter_append] at iht ⊢
    rw [iht]
    simp [List.filter_cons, digit_ne_space ha, digit_ne_space hb, digit_ne_space hc]

/-- `int` succeeds on the matched group run and returns its digit value. -/
theorem expConvert_grouped (dh : List Char) (gs : List (Char × Char × Char))
    (h1 : dh ≠ []) (h3 : ∀ c ∈ dh, c.isDigit = true)
    (hg : ∀ g ∈ gs, digitTriple g = true) :
    expConvert (dh ++ sepGroups gs) = Except.ok (digitsToNat (dh ++ groupDigits gs)) := by
  unfold expConvert
  rw [List.filter_append, List.filter_eq_self.mpr (fun c hc => digit_ne_space (h3 c hc)),
    filter_sepGroups gs hg]
  rw [if_pos]
  rcases dh with _ | ⟨d, t⟩
  · exact absurd rfl h1
  simp only [Bool.and_eq_true, List.all_eq_true, List.cons_append, List.isEmpty_cons,
    Bool.not_false, true_and]
  intro c hc
  simp only [List.mem_cons, List.mem_append] at hc
  rcases hc with rfl | hc | hc
  · exact h3 c (List.mem_cons_self _ _)
  · exact h3 c (List.mem_cons_of_mem _ hc)
  · exact groupDigits_digits gs hg c hc

/-- C8: a `text_xp` element whose text is a digit-free lead followed by a
well-grouped number with space thousands separators (and no digit or group
continuation after it) yields exactly that number with separators removed
as the experience — concretely, `2 106 / 3 700` gives `2106`. -/
theorem c8_experience (soup : Soup) (nick : String) (pre dh sfx : List Char)
    (gs : List (Char × Char × Char))
    (hxp : soup.textXp = some (String.mk (pre ++ (dh ++ (sepGroups gs ++ sfx)))))
    (hpre : ∀ c ∈ pre, c.isDigit = false)
    (h1 : dh ≠ []) (h2 : dh.length ≤ 3) (h3 : ∀ c ∈ dh, c.isDigit = true)
    (hg : ∀ g ∈ gs, digitTriple g = true)
    (hnd : startsDigit (sepGroups gs ++ sfx) = false)
    (hs : startsWsGroup sfx = false) :
    (get_player_stats (some soup) nick).map PlayerData.experience
      = some (digitsToNat (dh ++ groupDigits gs)) := by
  have hmatch : expMatch (pre ++ (dh ++ (sepGroups gs ++ sfx)))
      = some (dh ++ sepGroups gs) := by
    rw [expMatch_skip pre _ hpre]
    exact expMatch_at dh gs sfx h1 h2 h3 hg hnd hs
  have hm1 : expMethod1 soup = Except.ok (some (digitsToNat (dh ++ groupDigits gs))) := by
    unfold expMethod1
    rw [hxp]
    show (match expMatch (pre ++ (dh ++ (sepGroups gs ++ sfx))) with
      | none => Except.ok none
      | some m => (expConvert m).map some) = _
    rw [hmatch]
    dsimp only
    rw [expConvert_grouped dh gs h1 h3 hg]
    rfl
  have her : experienceResult soup
      = Except.ok (some (digitsToNat (dh ++ groupDigits gs))) := by
    unfold experienceResult
    rw [hm1]
  rw [gps_eq, her]
  show some ((afterExp soup (setExp (rankApplied soup nick)
    (some (digitsToNat (dh ++ groupDigits gs))))).experience) = _
  rw [afterExp_experience]
  rfl

/-- C8 witness: `2 106 / 3 700` in the progress bar yields experience
`2106`. -/
theorem c8_experience_witness :
    (get_player_stats (some soupXpBar) "TestPlayer").map PlayerData.experience
      = some 2106 := by
  have h := c8_experience soupXpBar "TestPlayer" [] ['2'] " / 3 700".toList [('1', '0', '6')]
    (by decide) (by intro c hc; simp at hc) (by decide) (by decide)
    (by decide) (by decide) (by decide) (by decide)
  exact h.trans (by decide)
